import Mathlib

/-!
Shallow embedding of the lapin-futures background task core
(`src/futures/src/{background,pulse,client,error}.rs` and
`src/futures/src/commands/{command,channel,heartbeat}.rs`).

External collaborators (the `lapin_async` `Connection`, the transport, the
timer and the mpsc channel) are modelled at their interface boundary: their
per-poll outcomes are inputs to the embedded step functions, and the
`Connection` carries the results its methods would return.
-/

namespace Lapin

/-- AMQP frames (from the external `amq_protocol` crate). Only the heartbeat
frame is ever constructed by this code; other frames are abstracted. -/
inductive AMQPFrame
  | heartbeat (channel : Nat)
  | other (payload : Nat)
  deriving DecidableEq, Repr

/-- Channel ids handed out by the external connection. -/
abbrev ChannelId := Nat

/-- Request ids returned by the external connection for issued methods. -/
abbrev RequestId := Nat

/-- Opaque model of `lapin_async::error::Error` (external protocol engine). -/
structure LapinAsyncError where
  code : Nat
  deriving DecidableEq, Repr

/-- Opaque model of `std::io::Error`. -/
structure IoError where
  code : Nat
  deriving DecidableEq, Repr

/-- `error.rs`: `ErrorKind`. -/
inductive ErrorKind
  | HandleDropped
  | TimerDropped
  | Transport (e : IoError)
  | ChannelLimitReached
  | ProtocolError (e : LapinAsyncError)
  deriving DecidableEq, Repr

/-- `error.rs`: `Error` wraps an `ErrorKind`. -/
structure Error where
  kind : ErrorKind
  deriving DecidableEq, Repr

/-- `impl From<ErrorKind> for Error`. -/
def ErrorKind.intoError (k : ErrorKind) : Error := ⟨k⟩

/-- Interface model of the external `lapin_async::connection::Connection`:
the outgoing frame queue is explicit state; the results of the connection
methods used by the commands are carried as oracle fields. -/
structure Connection where
  frame_queue : List AMQPFrame
  create_channel_result : Option ChannelId
  channel_open_result : ChannelId → String → Except LapinAsyncError RequestId
  is_finished_result : Option RequestId → Option Bool

/-- `Connection::create_channel() -> Option<ChannelId>` (external). -/
def Connection.create_channel (c : Connection) : Option ChannelId :=
  c.create_channel_result

/-- `Connection::channel_open(id, name) -> Result<RequestId, Error>` (external). -/
def Connection.channel_open (c : Connection) (id : ChannelId) (name : String) :
    Except LapinAsyncError RequestId :=
  c.channel_open_result id name

/-- `Connection::is_finished(request_id) -> Option<bool>` (external). -/
def Connection.is_finished (c : Connection) (r : Option RequestId) : Option Bool :=
  c.is_finished_result r

/-- The empty channel name passed by `Open::execute` (`"".into()`). -/
def emptyName : String := ""

/-- The closed set of commands sent through the queue
(`commands/channel.rs` `Open` and `commands/heartbeat.rs` `Heartbeat`),
the trait-object dispatch of `commands/command.rs` turned into a sum type. -/
inductive Command
  | Open (request_id : Option RequestId)
  | Heartbeat
  deriving DecidableEq, Repr

/-- `Open::new()`: a fresh open-channel command with no request id. -/
def Command.openNew : Command := .Open none

/-- `Command::execute(&mut self, conn: &mut Connection)`: returns the result
together with the updated command (`&mut self`) and connection (`&mut conn`).
`Open::execute` (`commands/channel.rs:20-30`) and `Heartbeat::execute`
(`commands/heartbeat.rs:19-22`). -/
def Command.execute : Command → Connection → (Except Error Unit) × Command × Connection
  | .Open rid, conn =>
    match conn.create_channel with
    | none => (.error (ErrorKind.ChannelLimitReached.intoError), .Open rid, conn)
    | some channel_id =>
      match conn.channel_open channel_id emptyName with
      | .error e => (.error (ErrorKind.ProtocolError e).intoError, .Open rid, conn)
      | .ok r => (.ok (), .Open (some r), conn)
  | .Heartbeat, conn =>
    (.ok (), .Heartbeat,
      { conn with frame_queue := conn.frame_queue ++ [AMQPFrame.heartbeat 0] })

/-- `Command::has_finished(&self, conn)`: `Open` asks the connection whether
its recorded request id resolved (`unwrap_or(false)`); `Heartbeat` is always
finished. -/
def Command.has_finished : Command → Connection → Bool
  | .Open rid, conn => (conn.is_finished rid).getD false
  | .Heartbeat, _ => true

/-- Modelled from the spec: `ConfirmSelectOptions` lives in the channel
module, which is absent from the provided sources; the spec only uses it as
an opaque options value passed to `create_confirm_channel`, so it is
modelled as an opaque value. -/
structure ConfirmSelectOptions where
  tag : Nat
  deriving DecidableEq, Repr

/-- Snapshot of the negotiated connection configuration
(`lapin_async::connection::Configuration`, external). -/
structure ConnectionConfiguration where
  frame_max : Nat
  heartbeat : Nat
  deriving DecidableEq, Repr

/-- `client.rs`: the `Client` holds a clone of the command-queue sender and
the configuration snapshot. The sender is identified by an id; what matters
for the claims is which commands a client operation enqueues. -/
structure Client where
  channel : Nat
  configuration : ConnectionConfiguration
  deriving DecidableEq, Repr

/-- Observable outcome of a client method returning an immediately-resolved
future: the resolved value and the list of commands the method enqueued on
the command queue. -/
structure FutureOutcome where
  value : Except IoError Unit
  enqueued : List Command
  deriving Repr

/-- `Client::create_confirm_channel` (`client.rs:136-146`): the entire body
is `future::ok(())` (the channel-creating code is commented out), so the
returned future resolves immediately to `()` and nothing is enqueued. -/
def Client.create_confirm_channel (_c : Client) (_options : ConfirmSelectOptions) :
    FutureOutcome :=
  { value := .ok (), enqueued := [] }

/-- Outcome of polling the pending `sink::Send` task held by the `Pulse`
(the in-flight enqueue attempt): still pending, accepted, or failed (for the
futures mpsc sender the only send failure is the receiver being gone). -/
inductive SendPoll
  | notReady
  | ready
  | errReceiverGone
  deriving DecidableEq, Repr

/-- Outcome of polling the `tokio_timer::Interval` stream: not ready, a tick
(`Ready(Some(_))`), stream exhaustion (`Ready(None)`), or a timer error,
which carries whether `is_at_capacity()` holds. -/
inductive TimerPoll
  | notReady
  | tick
  | ended
  | err (at_capacity : Bool)
  deriving DecidableEq, Repr

/-- Result of `Pulse::poll` (`Poll<(), Error>`). -/
inductive PulsePollResult
  | notReady
  | ready
  | err (e : Error)
  deriving DecidableEq, Repr

/-- Observable outcome of one `Pulse::poll` turn: its returned value, the
state of the pending-send slot (`self.task`) after the turn, whether the
interval timer was polled this turn, whether a new enqueue attempt was begun
(`self.task = Some(chan.send(heartbeat))`), whether a failed send was logged
(`error!("Couldn't send the heartbeat ...")`), and whether the current task
was explicitly re-woken (`task::current().notify()`). -/
structure PulseObs where
  result : PulsePollResult
  pending : Bool
  timerPolled : Bool
  attemptBegun : Bool
  loggedSendError : Bool
  notified : Bool
  deriving DecidableEq, Repr

/-- The second half of `Pulse::poll` (`pulse.rs:46-61`): polling the interval
timer after the pending-send slot has been dealt with. On a tick a new
heartbeat enqueue attempt is begun and stored in the slot; on stream end the
pulse reports completion; on an at-capacity timer error the current task is
notified and the turn retried; on any other timer error `TimerDropped` is
returned. -/
def pulseTimerStep (timer : TimerPoll) (loggedSendError : Bool) : PulseObs :=
  match timer with
  | .notReady =>
      ⟨.notReady, false, true, false, loggedSendError, false⟩
  | .tick =>
      ⟨.notReady, true, true, true, loggedSendError, false⟩
  | .ended =>
      ⟨.ready, false, true, false, loggedSendError, false⟩
  | .err true =>
      ⟨.notReady, false, true, false, loggedSendError, true⟩
  | .err false =>
      ⟨.err (ErrorKind.TimerDropped.intoError), false, true, false, loggedSendError, false⟩

/-- `Pulse::poll` (`pulse.rs:34-62`) with the environment outcomes as
inputs: `pending` is whether `self.task` holds an outstanding enqueue
attempt, `send` is what polling that attempt would return, and `timer` is
what polling the interval would return. If the pending attempt is still not
ready, the slot is restored and the poll returns not-ready without touching
the timer; if it completed (or failed, which is logged), the slot stays
cleared and the timer is polled. -/
def Pulse.pollObs (pending : Bool) (send : SendPoll) (timer : TimerPoll) : PulseObs :=
  if pending then
    match send with
    | .notReady => ⟨.notReady, true, false, false, false, false⟩
    | .ready => pulseTimerStep timer false
    | .errReceiverGone => pulseTimerStep timer true
  else
    pulseTimerStep timer false

/-- Timed state of the `Pulse` for the no-backpressure analysis: the
deadline of the next interval tick (`tokio_timer::Interval` fires once the
deadline is reached and then advances it by the period), and whether an
enqueue attempt is in flight. -/
structure PulseTimed where
  deadline : Nat
  pending : Bool
  deriving DecidableEq, Repr

/-- `Pulse::new` / `Background::new`: the interval is
`Interval::new(Instant::now(), period)`, so the first tick is immediate at
the creation instant. -/
def Pulse.newTimed (now : Nat) : PulseTimed := ⟨now, false⟩

/-- The heartbeat period configured in `Background::new`
(`Duration::from_secs(60)`). -/
def pulseInterval : Nat := 60

/-- One `Pulse::poll` at time `t` under the no-backpressure assumption: a
pending enqueue attempt completes as soon as it is polled, so the slot is
cleared and the interval is polled. The interval fires exactly when its
deadline has been reached, at most once per poll, and then advances the
deadline by the period `D` (tokio's `Interval` resets the delay to the fired
deadline plus the period). Returns the new state and whether a new enqueue
attempt was begun. -/
def Pulse.pollTimedNB (D t : Nat) (s : PulseTimed) : PulseTimed × Bool :=
  if s.deadline ≤ t then (⟨s.deadline + D, true⟩, true) else (⟨s.deadline, false⟩, false)

/-- Fold `Pulse.pollTimedNB` over a list of poll times, counting how many
enqueue attempts were begun. -/
def Pulse.runTimedNB (D : Nat) : PulseTimed → List Nat → PulseTimed × Nat
  | s, [] => (s, 0)
  | s, t :: ts =>
    ((Pulse.runTimedNB D (Pulse.pollTimedNB D t s).1 ts).1,
      (Pulse.runTimedNB D (Pulse.pollTimedNB D t s).1 ts).2
        + (if (Pulse.pollTimedNB D t s).2 then 1 else 0))

/-- What polling the shutdown `oneshot::Receiver` returns: not ready, the
signal (`Ok(Ready(_))`), or the cancellation error (`Err(_)`, the sender was
destroyed without sending). -/
inductive ShutdownPoll
  | notReady
  | signaled
  | errCanceled
  deriving DecidableEq, Repr

/-- Outcome of driving the external transport (`AMQPTransport::poll`). -/
inductive TransportPoll
  | notReady
  | done
  | err (e : IoError)
  deriving DecidableEq, Repr

/-- `background.rs`: `BackgroundHandle(Option<oneshot::Sender<()>>)`. -/
structure BackgroundHandle where
  sender : Option Unit
  deriving DecidableEq, Repr

/-- Interface model of the external `AMQPTransport`: the connection it owns
and what driving its I/O would return. -/
structure AMQPTransport where
  conn : Connection
  pollOutcome : TransportPoll

/-- `background.rs`: the `Background` task state. The per-poll outcomes of
the external event sources (shutdown receiver, pulse, transport) are carried
as oracle fields; the command queue contents are the explicit FIFO
`commands` plus whether the queue is closed (all senders dropped, so that
polling it would yield `Ready(None)`). The `c*` fields are observation
counters, not part of the Rust state: each counts how often the
corresponding event source has been polled. -/
structure Background where
  transport : TransportPoll
  shutdown : ShutdownPoll
  handle : Option BackgroundHandle
  commands : List Command
  commandsClosed : Bool
  pulse : PulsePollResult
  conn : Connection
  cShut : Nat
  cPulse : Nat
  cCmd : Nat
  cTrans : Nat

/-- `Background::new` (`background.rs:43-57`): fresh shutdown channel (not
yet signaled), the handle slot filled with the unique handle holding the
shutdown sender, an empty command queue, and the connection taken from the
transport. -/
def Background.new (transport : AMQPTransport) : Background :=
  { transport := transport.pollOutcome
    shutdown := .notReady
    handle := some ⟨some ()⟩
    commands := []
    commandsClosed := false
    pulse := .notReady
    conn := transport.conn
    cShut := 0
    cPulse := 0
    cCmd := 0
    cTrans := 0 }

/-- `Background::handle` (`background.rs:68-70`): `self.handle.take()` — the
take-once accessor for the unique handle. -/
def Background.takeHandle (s : Background) : Option BackgroundHandle × Background :=
  (s.handle, { s with handle := none })

/-- Result of one `Background::poll` turn (`Poll<(), Error>`), with an
explicit case for a Rust panic (`unwrap()` on a failed command execution, or
the `unreachable!()` arms). -/
inductive BgPoll
  | notReady
  | ready
  | err (e : Error)
  | panicked
  deriving DecidableEq, Repr

/-- Fourth stage of `Background::poll` (`background.rs:101-105`): drive the
transport; completion terminates cleanly, an error terminates with a wrapped
`Transport` error. -/
def Background.pollTransport (s : Background) : BgPoll × Background :=
  (match s.transport with
    | .done => .ready
    | .notReady => .notReady
    | .err e => .err (ErrorKind.Transport e).intoError,
   { s with cTrans := s.cTrans + 1 })

/-- Third stage of `Background::poll` (`background.rs:92-100`): drain at
most one command from the queue and execute it against the connection,
`unwrap`-ing the result (a failed execution panics); an empty-and-closed
queue hits the `unreachable!()` arm; an empty open queue is not ready and
the turn falls through to the transport. -/
def Background.pollCommands (s : Background) : BgPoll × Background :=
  let s' := { s with cCmd := s.cCmd + 1 }
  match s'.commands with
  | command :: rest =>
    match command.execute s'.conn with
    | (.ok _, _, conn') =>
        Background.pollTransport { s' with commands := rest, conn := conn' }
    | (.error _, _, _) => (.panicked, { s' with commands := rest })
  | [] =>
    if s'.commandsClosed then (.panicked, s')
    else Background.pollTransport s'

/-- `Background::poll` (`background.rs:81-107`): check the shutdown signal,
then advance the pulse, then drain at most one command, then drive the
transport, in that order, returning at the first stage that terminates the
task. -/
def Background.poll (s : Background) : BgPoll × Background :=
  let s' := { s with cShut := s.cShut + 1 }
  match s'.shutdown with
  | .signaled => (.ready, s')
  | .errCanceled => (.err (ErrorKind.HandleDropped.intoError), s')
  | .notReady =>
    let s'' := { s' with cPulse := s'.cPulse + 1 }
    match s''.pulse with
    | .ready => (.panicked, s'')
    | .err e => (.err e, s'')
    | .notReady => Background.pollCommands s''

/-- Repeatedly poll the background task (the scheduler loop), up to `fuel`
turns, stopping at the first turn whose result is not `notReady`. -/
def Background.run : Nat → Background → Option (BgPoll × Background)
  | 0, _ => none
  | n + 1, s =>
    match Background.poll s with
    | (BgPoll.notReady, s') => Background.run n s'
    | (r, s') => some (r, s')

/-- Whether the command stage of a turn falls through to the transport
stage: the queue is empty but open, or the head command executes ok. -/
def cmdStagePasses (s : Background) : Bool :=
  match s.commands with
  | [] => !s.commandsClosed
  | command :: _ => ((command.execute s.conn).1).isOk

/-- Observable outcome of `BackgroundHandle::drop` (`background.rs:110-118`):
whether the `expect("cannot be dropped twice")` panicked, how many sends of
the shutdown signal were attempted, and which log line was emitted (debug on
a delivered send, warn on a send that failed because the receiver is gone). -/
structure DropObs where
  panicked : Bool
  sendAttempts : Nat
  loggedDebug : Bool
  loggedWarn : Bool
  deriving DecidableEq, Repr

/-- `BackgroundHandle::drop`: take the sender out (panicking if it was
already taken, which cannot happen for a handle built by `Background::new`)
and send the shutdown signal exactly once; a send that fails because the
receiver is gone is logged at warn level and swallowed. -/
def BackgroundHandle.drop (h : BackgroundHandle) (receiverAlive : Bool) : DropObs :=
  match h.sender with
  | none => ⟨true, 0, false, false⟩
  | some _ =>
    if receiverAlive then ⟨false, 1, true, false⟩
    else ⟨false, 1, false, true⟩

/-- A concrete connection on which `create_channel` yields id 1 and
`channel_open` yields request id 7. -/
def connOpenOk : Connection :=
  { frame_queue := []
    create_channel_result := some 1
    channel_open_result := fun _ _ => .ok 7
    is_finished_result := fun _ => none }

/-- A concrete connection whose channel limit is reached: `create_channel`
yields no id. -/
def connNoChannel : Connection :=
  { frame_queue := []
    create_channel_result := none
    channel_open_result := fun _ _ => .error ⟨0⟩
    is_finished_result := fun _ => none }

/-- A transport that is not ready, owning `connNoChannel`. -/
def transportIdle : AMQPTransport :=
  { conn := connNoChannel, pollOutcome := .notReady }

/-- Background state with one queued `OpenChannel` command against a
connection whose channel limit is reached. -/
def bgOpenAtLimit : Background :=
  { Background.new transportIdle with commands := [Command.Open none] }

/-- Background state whose shutdown signal has been sent while three
commands are still queued. -/
def bgShutdownQueued : Background :=
  { Background.new transportIdle with
      shutdown := .signaled
      commands := [Command.Heartbeat, Command.Heartbeat, Command.Open none] }

lemma runTimedNB_append_fst (D : Nat) (ts : List Nat) (t : Nat) (s : PulseTimed) :
    (Pulse.runTimedNB D s (ts ++ [t])).1
      = (Pulse.pollTimedNB D t (Pulse.runTimedNB D s ts).1).1 := by
  induction ts generalizing s with
  | nil => rfl
  | cons a as ih =>
    simp only [List.cons_append, Pulse.runTimedNB]
    exact ih _

lemma runTimedNB_append_snd (D : Nat) (ts : List Nat) (t : Nat) (s : PulseTimed) :
    (Pulse.runTimedNB D s (ts ++ [t])).2
      = (Pulse.runTimedNB D s ts).2
          + (if (Pulse.pollTimedNB D t (Pulse.runTimedNB D s ts).1).2 then 1 else 0) := by
  induction ts generalizing s with
  | nil => rfl
  | cons a as ih =>
    simp only [List.cons_append, Pulse.runTimedNB, List.append_eq]
    rw [ih]
    omega

lemma runTimedNB_range_inv (D : Nat) (hD : 0 < D) (T : Nat) :
    (Pulse.runTimedNB D (Pulse.newTimed 0) (List.range (T + 1))).1.deadline
        = (T / D + 1) * D
    ∧ (Pulse.runTimedNB D (Pulse.newTimed 0) (List.range (T + 1))).2 = T / D + 1 := by
  induction T with
  | zero =>
    simp [List.range_succ, List.range_zero, Pulse.runTimedNB, Pulse.pollTimedNB,
      Pulse.newTimed, Nat.zero_div]
  | succ T ih =>
    obtain ⟨ihd, ihc⟩ := ih
    have hmod : D * (T / D) + T % D = T := Nat.div_add_mod T D
    have hlt : T % D < D := Nat.mod_lt T hD
    have hX : D * (T / D + 1) = D * (T / D) + D := by ring
    have hexp : (T / D + 1) * D = D * (T / D) + D := by ring
    rw [List.range_succ, runTimedNB_append_fst, runTimedNB_append_snd, ihc]
    simp only [Pulse.pollTimedNB, ihd]
    by_cases h : (T / D + 1) * D ≤ T + 1
    · have hTeq : T + 1 = D * (T / D + 1) := by omega
      have hdiv : (T + 1) / D = T / D + 1 := by
        rw [hTeq, Nat.mul_div_cancel_left _ hD]
      rw [if_pos h]
      constructor
      · simp only [hdiv]
        ring
      · rw [hdiv]
        simp
    · rw [if_neg h]
      have hrlt : T % D + 1 < D := by omega
      have hTeq : T + 1 = D * (T / D) + (T % D + 1) := by omega
      have hdiv : (T + 1) / D = T / D := by
        rw [hTeq, Nat.mul_add_div hD, Nat.div_eq_of_lt hrlt]
        omega
      constructor
      · simp only [hdiv]
      · rw [hdiv]
        simp

/-- C4: with no backpressure, polling the pulse at every instant `0..T`
begins exactly `T / D + 1` heartbeat enqueue attempts — one per elapsed
period `D`, the first immediately at time 0 — and a poll strictly before the
current deadline begins no attempt. -/
theorem pulse_one_attempt_per_period (D T : Nat) (hD : 0 < D) :
    (Pulse.runTimedNB D (Pulse.newTimed 0) (List.range (T + 1))).2 = T / D + 1
    ∧ (Pulse.pollTimedNB D 0 (Pulse.newTimed 0)).2 = true
    ∧ (∀ (s : PulseTimed) (t : Nat), t < s.deadline →
        (Pulse.pollTimedNB D t s).2 = false) := by
  refine ⟨(runTimedNB_range_inv D hD T).2, ?_, ?_⟩
  · simp [Pulse.pollTimedNB, Pulse.newTimed]
  · intro s t ht
    simp [Pulse.pollTimedNB, Nat.not_le.mpr ht]

/-- Witness for C4 at the reference configuration: a 60-second period over
times `0..150` begins exactly three attempts (at 0, 60 and 120), and a poll
at time 5 against a deadline of 60 begins none. -/
theorem pulse_one_attempt_per_period_witness :
    (Pulse.runTimedNB pulseInterval (Pulse.newTimed 0) (List.range (150 + 1))).2
        = 150 / pulseInterval + 1
    ∧ (Pulse.pollTimedNB pulseInterval 5 ⟨60, false⟩).2 = false := by
  have h := pulse_one_attempt_per_period pulseInterval 150 (by decide)
  exact ⟨h.1, h.2.2 ⟨60, false⟩ 5 (by decide)⟩

/-- C5: the pulse holds at most one outstanding enqueue attempt: if the
pending attempt is still not ready the poll returns not-ready, leaves the
attempt in place, does not poll the timer and begins no new attempt; if the
pending attempt completed, the slot is cleared and the turn falls through to
the timer exactly as when no attempt was pending. -/
theorem pulse_single_outstanding (send : SendPoll) (timer : TimerPoll) :
    Pulse.pollObs true SendPoll.notReady timer
        = ⟨.notReady, true, false, false, false, false⟩
    ∧ Pulse.pollObs true SendPoll.ready timer = pulseTimerStep timer false
    ∧ Pulse.pollObs false send timer = pulseTimerStep timer false := by
  refine ⟨rfl, rfl, ?_⟩
  simp [Pulse.pollObs]

/-- Counterexample to C6 as stated: a failure of the underlying timer source
is not always fatal — when the timer error reports at-capacity, `Pulse::poll`
notifies the current task and returns not-ready instead of the
`TimerDropped` error the claim requires for every timer-source failure. -/
theorem pulse_failure_policy_cex :
    (Pulse.pollObs false SendPoll.notReady (TimerPoll.err true)).result
        = PulsePollResult.notReady
    ∧ (Pulse.pollObs false SendPoll.notReady (TimerPoll.err true)).notified = true
    ∧ (Pulse.pollObs false SendPoll.notReady (TimerPoll.err true)).result
        ≠ PulsePollResult.err (ErrorKind.TimerDropped.intoError) := by
  refine ⟨rfl, rfl, ?_⟩
  decide

/-- C6 (amended): the at-capacity retry applies to the timer, not the
enqueue — a timer poll error reporting at-capacity re-wakes the current task
and returns not-ready; a failed enqueue attempt (receiver gone) is logged
and swallowed, the pulse falling through to poll its timer; a timer error
that is not at-capacity is fatal, returns `TimerDropped`, and a pulse error
terminates the owning background task's poll with that error. -/
theorem pulse_failure_policy (send : SendPoll) (timer : TimerPoll)
    (s : Background) (e : Error) :
    Pulse.pollObs false send (TimerPoll.err true)
        = ⟨.notReady, false, true, false, false, true⟩
    ∧ Pulse.pollObs true SendPoll.errReceiverGone timer = pulseTimerStep timer true
    ∧ (Pulse.pollObs false send (TimerPoll.err false)).result
        = PulsePollResult.err (ErrorKind.TimerDropped.intoError)
    ∧ Background.poll
          { s with shutdown := ShutdownPoll.notReady, pulse := PulsePollResult.err e }
        = (BgPoll.err e,
            { s with
                shutdown := ShutdownPoll.notReady
                pulse := PulsePollResult.err e
                cShut := s.cShut + 1
                cPulse := s.cPulse + 1 }) := by
  refine ⟨?_, rfl, ?_, ?_⟩
  · simp [Pulse.pollObs, pulseTimerStep]
  · simp [Pulse.pollObs, pulseTimerStep]
  · simp [Background.poll]

/-- C7: executing a fresh `OpenChannel` command returns `ChannelLimitReached`
exactly when the connection's `create_channel` returns no id; on success it
issues `channel_open` against that id, records the returned request id
(`request_id` is `some` exactly when `execute` returned ok), and a
`channel_open` failure is returned wrapped as `ProtocolError`. -/
theorem open_execute_spec (conn : Connection) :
    (((Command.Open none).execute conn).1
        = .error ⟨.ChannelLimitReached⟩ ↔ conn.create_channel = none)
    ∧ (∀ id, conn.create_channel = some id →
        match conn.channel_open id emptyName with
        | .ok rid =>
            ((Command.Open none).execute conn).1 = .ok ()
            ∧ ((Command.Open none).execute conn).2.1 = Command.Open (some rid)
        | .error e =>
            ((Command.Open none).execute conn).1 = .error ⟨.ProtocolError e⟩
            ∧ ((Command.Open none).execute conn).2.1 = Command.Open none)
    ∧ ((∃ rid, ((Command.Open none).execute conn).2.1 = Command.Open (some rid))
        ↔ ((Command.Open none).execute conn).1 = .ok ()) := by
  rcases h : conn.create_channel_result with _ | id
  · refine ⟨?_, ?_, ?_⟩
    · simp [Command.execute, Connection.create_channel, ErrorKind.intoError, h]
    · intro id' hid
      simp [Connection.create_channel, h] at hid
    · simp [Command.execute, Connection.create_channel, ErrorKind.intoError, h]
  · rcases ho : conn.channel_open_result id emptyName with e | r
    · refine ⟨?_, ?_, ?_⟩
      · simp [Command.execute, Connection.create_channel, Connection.channel_open,
          ErrorKind.intoError, h, ho]
      · intro id' hid
        simp only [Connection.create_channel, h, Option.some.injEq] at hid
        subst hid
        simp [Command.execute, Connection.create_channel, Connection.channel_open,
          ErrorKind.intoError, h, ho]
      · simp [Command.execute, Connection.create_channel, Connection.channel_open,
          ErrorKind.intoError, h, ho]
    · refine ⟨?_, ?_, ?_⟩
      · simp [Command.execute, Connection.create_channel, Connection.channel_open,
          ErrorKind.intoError, h, ho]
      · intro id' hid
        simp only [Connection.create_channel, h, Option.some.injEq] at hid
        subst hid
        simp [Command.execute, Connection.create_channel, Connection.channel_open,
          ErrorKind.intoError, h, ho]
      · simp [Command.execute, Connection.create_channel, Connection.channel_open,
          ErrorKind.intoError, h, ho]

/-- Witness for C7: on `connOpenOk` the open command succeeds and records
request id 7. -/
theorem open_execute_spec_witness :
    ((Command.Open none).execute connOpenOk).1 = .ok ()
    ∧ ((Command.Open none).execute connOpenOk).2.1 = Command.Open (some 7) := by
  have h := (open_execute_spec connOpenOk).2.1 1 rfl
  exact h

/-- C9: executing a `Heartbeat` command appends exactly one heartbeat frame
to the connection's outgoing frame queue, leaves everything else unchanged,
and always returns ok; `has_finished` is true regardless of the connection. -/
theorem heartbeat_execute_spec (conn : Connection) :
    Command.Heartbeat.execute conn
      = (.ok (), .Heartbeat,
          { conn with frame_queue := conn.frame_queue ++ [AMQPFrame.heartbeat 0] })
    ∧ Command.Heartbeat.has_finished conn = true :=
  ⟨rfl, rfl⟩

/-- C10: `create_confirm_channel` resolves immediately to `()`, enqueues no
command, and its result does not depend on the options value. -/
theorem create_confirm_channel_trivial (c : Client) (o o' : ConfirmSelectOptions) :
    Client.create_confirm_channel c o = { value := .ok (), enqueued := [] }
    ∧ Client.create_confirm_channel c o = Client.create_confirm_channel c o' :=
  ⟨rfl, rfl⟩

/-- C1 (code evaluated at the failing input): on a connection whose channel
limit is reached, executing the queued `OpenChannel` command yields the
`ChannelLimitReached` error, and `Background::poll` then panics on the
`unwrap()` of that result instead of reporting the error to the issuer and
continuing. -/
theorem open_channel_limit_panics_task :
    ((Command.Open none).execute connNoChannel).1
        = Except.error (ErrorKind.ChannelLimitReached.intoError)
    ∧ (Background.poll bgOpenAtLimit).1 = BgPoll.panicked :=
  ⟨rfl, rfl⟩

/-- C2: once the shutdown signal has been sent, the very next poll returns
clean termination with the state otherwise untouched — no command is drained
or applied, the pulse is not advanced, the transport is not driven — and the
scheduler loop stops at that turn, so no later turn runs either. -/
theorem shutdown_halts_immediately (s : Background)
    (h : s.shutdown = ShutdownPoll.signaled) (n : Nat) :
    Background.poll s = (BgPoll.ready, { s with cShut := s.cShut + 1 })
    ∧ Background.run (n + 1) s = some (BgPoll.ready, { s with cShut := s.cShut + 1 }) := by
  have hp : Background.poll s = (BgPoll.ready, { s with cShut := s.cShut + 1 }) := by
    simp [Background.poll, h]
  refine ⟨hp, ?_⟩
  simp [Background.run, hp]

/-- Witness for C2: a signaled state with three queued commands terminates
on its first turn with the queue, connection and transport counter intact. -/
theorem shutdown_halts_immediately_witness :
    Background.run 1 bgShutdownQueued
      = some (BgPoll.ready, { bgShutdownQueued with cShut := 1 }) := by
  have h := (shutdown_halts_immediately bgShutdownQueued rfl 0).2
  exact h

/-- C3: each turn polls the event sources in the fixed priority order — the
shutdown receiver always, the pulse only when shutdown was not ready, the
command queue only when the pulse was also not ready, the transport only
when the command stage also fell through — and drains at most one command
from the queue. -/
theorem background_priority_order (s : Background) :
    (Background.poll s).2.cShut = s.cShut + 1
    ∧ ((Background.poll s).2.cPulse
        = if s.shutdown = ShutdownPoll.notReady then s.cPulse + 1 else s.cPulse)
    ∧ ((Background.poll s).2.cCmd
        = if s.shutdown = ShutdownPoll.notReady ∧ s.pulse = PulsePollResult.notReady
          then s.cCmd + 1 else s.cCmd)
    ∧ ((Background.poll s).2.cTrans
        = if s.shutdown = ShutdownPoll.notReady ∧ s.pulse = PulsePollResult.notReady
              ∧ cmdStagePasses s = true
          then s.cTrans + 1 else s.cTrans)
    ∧ s.commands.length ≤ (Background.poll s).2.commands.length + 1
    ∧ (Background.poll s).2.commands.length ≤ s.commands.length := by
  cases hs : s.shutdown with
  | signaled => simp [Background.poll, hs]
  | errCanceled => simp [Background.poll, hs]
  | notReady =>
    cases hp : s.pulse with
    | ready => simp [Background.poll, hs, hp]
    | err e => simp [Background.poll, hs, hp]
    | notReady =>
      cases hq : s.commands with
      | nil =>
        by_cases hc : s.commandsClosed
        · simp [Background.poll, Background.pollCommands, cmdStagePasses, hs, hp, hq, hc]
        · simp [Background.poll, Background.pollCommands, Background.pollTransport,
            cmdStagePasses, hs, hp, hq, hc]
      | cons c rest =>
        rcases hE : c.execute s.conn with ⟨res, c', conn'⟩
        cases res with
        | ok u =>
          simp [Background.poll, Background.pollCommands, Background.pollTransport,
            cmdStagePasses, hs, hp, hq, hE, Except.isOk, Except.toBool]
        | error e =>
          simp [Background.poll, Background.pollCommands, cmdStagePasses,
            hs, hp, hq, hE, Except.isOk, Except.toBool]

/-- C8: `Background::new` fills the handle slot, the first `handle()` call
takes the unique handle, every later call yields none (the slot stays
empty), and dropping that handle attempts exactly one send of the shutdown
signal without panicking — when the receiver is already gone the failed send
is logged at warn level, not treated as an error. -/
theorem handle_unique_shutdown_once (tr : AMQPTransport) (alive : Bool) (s : Background) :
    (Background.takeHandle (Background.new tr)).1 = some ⟨some ()⟩
    ∧ (Background.takeHandle (Background.takeHandle (Background.new tr)).2).1 = none
    ∧ (Background.takeHandle s).2.handle = none
    ∧ BackgroundHandle.drop ⟨some ()⟩ alive
        = ⟨false, 1, alive, !alive⟩ := by
  refine ⟨rfl, rfl, rfl, ?_⟩
  cases alive <;> rfl

end Lapin
